import Mathlib

/-!
# Spendora price normalization and estimation engine — shallow embedding

This file embeds the core of the Spendora product price comparison engine
(`simpleProductScraper`, `productScrapingService`, `realMarketDataAPI`) in Lean 4
and proves the specification claims about it.

Modelling conventions:
* JS numbers are modelled as `ℚ` (all arithmetic in the embedded code paths is
  exact on the inputs considered); `Math.round`/`Math.floor` become `jsRound`/`Int.floor`.
* JS 32-bit coercions (`<<`, `& `) are modelled with explicit `% 2^32` wrapping (`toInt32`).
* External runtime facilities — `Math.sin`, `Math.random`, page fetching + the cheerio
  DOM, `new URL`, `Date`, `encodeURIComponent`, number formatting — are oracles in an
  `Env` record.  `Math.random()` consumption is threaded as an explicit counter
  `ℕ` so that every call site consumes the stream in source order.
* `charCodeAt`/`substring`/`length` are modelled on Unicode scalar values, which
  agrees with UTF-16 code units on all BMP inputs (all inputs considered here).
-/

namespace Spendora

/-- JS `ToInt32` coercion: wrap an integer into `[-2^31, 2^31)`. -/
def toInt32 (n : ℤ) : ℤ := (n + 2 ^ 31) % 2 ^ 32 - 2 ^ 31

/-- JS `Math.round`: round half away from zero towards `+∞` (`⌊q + 1/2⌋`). -/
def jsRound (q : ℚ) : ℤ := ⌊q + 1 / 2⌋

/-- `sub` is a prefix of `l` (JS `String.startsWith` on char lists). -/
def charsStart : List Char → List Char → Bool
  | _, [] => true
  | [], _ :: _ => false
  | a :: as, b :: bs => a == b && charsStart as bs

/-- `sub` occurs contiguously in `l` (JS `String.includes` on char lists). -/
def charsInfix (sub : List Char) : List Char → Bool
  | [] => sub.isEmpty
  | c :: rest => charsStart (c :: rest) sub || charsInfix sub rest

/-- JS `String.includes`. -/
def containsStr (s sub : String) : Bool := charsInfix sub.toList s.toList

/-- JS `String.toLowerCase` (ASCII; all non-ASCII characters used are case-less). -/
def toLowerStr (s : String) : String := String.mk (s.toList.map Char.toLower)

/-- JS `String.toUpperCase` (ASCII; all non-ASCII characters used are case-less). -/
def toUpperStr (s : String) : String := String.mk (s.toList.map Char.toUpper)

/-- JS `String.replace` of every dash with a space. -/
def dashToSpace (s : String) : String :=
  String.mk (s.toList.map (fun c => if c = '-' then ' ' else c))

/-- JS `String.trim`: drop leading and trailing whitespace. -/
def trimChars (l : List Char) : List Char :=
  ((l.dropWhile Char.isWhitespace).reverse.dropWhile Char.isWhitespace).reverse

/-- JS `String.trim` on strings. -/
def jsTrim (s : String) : String := String.mk (trimChars s.toList)

/-! ## Price Text Normalizer (`extractPrice`, part_011 lines 873–925) -/

/-- Characters kept by the cleaning step
`priceText.replace(/[^\d\.,₹Rs KLCrore lakhlac]/gi, ' ')`: digits, `.`, `,`, `₹`,
space, and (case-insensitively) the letters of `Rs KLCrore lakhlac`. -/
def keptChar (c : Char) : Bool :=
  c.isDigit || c == '.' || c == ',' || c == '₹' || c == ' ' ||
  (let l := c.toLower
   l == 'r' || l == 's' || l == 'k' || l == 'l' || l == 'c' ||
   l == 'o' || l == 'e' || l == 'a' || l == 'h')

/-- Greedy match of the optional regex tail `(?:\.\d{1,2})?`. -/
def decTail : List Char → List Char
  | '.' :: d1 :: d2 :: _ =>
    if d1.isDigit then (if d2.isDigit then ['.', d1, d2] else ['.', d1]) else []
  | ['.', d1] => if d1.isDigit then ['.', d1] else []
  | _ => []

/-- Greedy match of `\s*([\d,]+(?:\.\d{1,2})?)` returning the capture, `none` if
the mandatory `[\d,]+` part is empty. -/
def grpAfter (l : List Char) : Option (List Char) :=
  let l1 := l.dropWhile Char.isWhitespace
  let run := l1.takeWhile (fun c => c.isDigit || c == ',')
  if run.isEmpty then none
  else some (run ++ decTail (l1.drop run.length))

/-- Leftmost match of `/₹\s*([\d,]+(?:\.\d{1,2})?)/` (format 1). -/
def scanRupee : List Char → Option (List Char)
  | [] => none
  | c :: t =>
    if c == '₹' then
      match grpAfter t with
      | some cap => some cap
      | none => scanRupee t
    else scanRupee t

/-- The part of format 2 after a leading `R`/`r`: `s\.?\s*([\d,]+(?:\.\d{1,2})?)`,
with regex backtracking on the optional `.`. -/
def rsAt : List Char → Option (List Char)
  | s :: t2 =>
    if s == 'S' || s == 's' then
      match t2 with
      | '.' :: t3 =>
        match grpAfter t3 with
        | some cap => some cap
        | none => grpAfter t2
      | _ => grpAfter t2
    else none
  | [] => none

/-- Leftmost match of `/Rs\.?\s*([\d,]+(?:\.\d{1,2})?)/i` (format 2). -/
def scanRs : List Char → Option (List Char)
  | [] => none
  | c :: t =>
    if c == 'R' || c == 'r' then
      match rsAt t with
      | some cap => some cap
      | none => scanRs t
    else scanRs t

/-- Try `₹?\s*([\d\.]+)\s*` followed by a suffix recognised by `sufOk`, anchored
at the current position.  (When the leading `₹` branch fails, the `₹?`-less
branch also fails at the same position, so no extra backtracking is needed.) -/
def sufAt (sufOk : List Char → Bool) (l : List Char) : Option (List Char) :=
  let l1 := match l with
            | '₹' :: t => t
            | _ => l
  let l2 := l1.dropWhile Char.isWhitespace
  let run := l2.takeWhile (fun c => c.isDigit || c == '.')
  if run.isEmpty then none
  else
    let l3 := (l2.drop run.length).dropWhile Char.isWhitespace
    if sufOk l3 then some run else none

/-- Leftmost match for the suffix-qualified formats 3–5. -/
def scanSuf (sufOk : List Char → Bool) : List Char → Option (List Char)
  | [] => none
  | c :: t =>
    match sufAt sufOk (c :: t) with
    | some cap => some cap
    | none => scanSuf sufOk t

/-- Suffix class of format 3, `[KkलakLakh]` (case-sensitive character set). -/
def suf3 : List Char → Bool
  | c :: _ => c == 'K' || c == 'k' || c == 'ल' || c == 'a' || c == 'L' || c == 'h'
  | [] => false

/-- Suffix of format 4, `L(?:akh)?` case-insensitive (the optional tail cannot
affect whether the whole pattern matches). -/
def sufL : List Char → Bool
  | c :: _ => c == 'L' || c == 'l'
  | [] => false

/-- Suffix of format 5, `Cr(?:ore)?` case-insensitive. -/
def sufCr : List Char → Bool
  | c :: r :: _ => (c == 'C' || c == 'c') && (r == 'R' || r == 'r')
  | _ => false

/-- Leftmost match of `/([\d]{1,2}[,\d]*(?:\.\d{1,2})?)/` (format 6).  Since
`[\d]{1,2}` is immediately followed by `[,\d]*`, the capture is the maximal
digit/comma run starting at the first digit, plus the optional decimal tail. -/
def scanComma : List Char → Option (List Char)
  | [] => none
  | c :: t =>
    if c.isDigit then
      let run := (c :: t).takeWhile (fun ch => ch.isDigit || ch == ',')
      some (run ++ decTail ((c :: t).drop run.length))
    else scanComma t

/-- Leftmost match of `/(\d+(?:\.\d{1,2})?)/` (format 7). -/
def scanPlain : List Char → Option (List Char)
  | [] => none
  | c :: t =>
    if c.isDigit then
      let run := (c :: t).takeWhile Char.isDigit
      some (run ++ decTail ((c :: t).drop run.length))
    else scanPlain t

/-- Numeric value of a digit run. -/
def digitsToNat (l : List Char) : ℕ :=
  l.foldl (fun a c => a * 10 + (c.toNat - '0'.toNat)) 0

/-- JS `parseFloat` on the comma-stripped captures produced by the price regexes
(whose characters are digits and dots): parse a leading `\d*(\.\d*)?` literal,
`none` for `NaN` (no digits at all). -/
def jsParseFloatQ (l : List Char) : Option ℚ :=
  let ip := l.takeWhile Char.isDigit
  let r1 := l.drop ip.length
  match r1 with
  | '.' :: r2 =>
    let fp := r2.takeWhile Char.isDigit
    if ip.isEmpty && fp.isEmpty then none
    else some ((digitsToNat ip : ℚ) + (digitsToNat fp : ℚ) / (10 : ℚ) ^ fp.length)
  | _ => if ip.isEmpty then none else some (digitsToNat ip : ℚ)

/-- JS `match[1].replace(/,/g, '')`. -/
def stripCommas (l : List Char) : List Char := l.filter (fun c => c ≠ ',')

/-- The magnitude multiplier scanned from the *original* text (uppercased):
`CR`/`CRORE` ⇒ ×10⁷, else `L`/`LAKH`/`LAC` ⇒ ×10⁵, else `K` ⇒ ×10³. -/
def suffixMultiplier (original : String) : ℚ :=
  let up := toUpperStr original
  if containsStr up "CR" || containsStr up "CRORE" then 10000000
  else if containsStr up "L" || containsStr up "LAKH" || containsStr up "LAC" then 100000
  else if containsStr up "K" then 1000
  else 1

/-- The `for (const format of formats)` loop body: first capture whose parse is
not `NaN` wins; its value is scaled by the suffix multiplier and rounded. -/
def applyFormats (original : String) : List (Option (List Char)) → ℚ
  | [] => 0
  | none :: rest => applyFormats original rest
  | some cap :: rest =>
    match jsParseFloatQ (stripCommas cap) with
    | none => applyFormats original rest
    | some p => ((jsRound (p * suffixMultiplier original) : ℤ) : ℚ)

/-- `extractPrice` (part_011 lines 873–925): extract a price from raw text with
multiple format support; returns `0` when no price is found. -/
def extractPrice (priceText : String) : ℚ :=
  if priceText = "" then 0
  else
    let cl := trimChars (priceText.toList.map
      (fun c => if keptChar c then c else ' '))
    applyFormats priceText
      [scanRupee cl, scanRs cl, scanSuf suf3 cl, scanSuf sufL cl,
       scanSuf sufCr cl, scanComma cl, scanPlain cl]

/-! ## External runtime facilities

The embedded code runs against browser/Node facilities that are not part of the
repository: `Math.sin`, `Math.random`, HTTP fetch + the cheerio DOM, `new URL`,
`Date`, `encodeURIComponent` and number-to-string formatting.  They are modelled
as oracles in an `Env` record; `Math.random()` is a stream `rand : ℕ → ℚ`
consumed in source order through an explicit call counter. -/

/-- A fetched page as seen through cheerio queries (an oracle for the DOM). -/
structure Page where
  /-- `$(sel).text()` -/
  q : String → String
  /-- `$(sel).first().text()` -/
  qFirst : String → String
  /-- the texts of all matches of `sel`, for `.each` loops -/
  qItems : String → List String
  /-- whether `sel` has at least one match (`$(sel).first().length > 0`) -/
  qFound : String → Bool
  /-- `$(outer).first().find(inner).text()` -/
  sub : String → String → String
  /-- `$(outer).first().find(inner).attr('href')` -/
  subAttr : String → String → Option String

/-- The result of JS `new URL(url)` (an oracle for the URL parser). -/
structure UrlParts where
  pathname : String
  /-- `searchParams.get('q')` -/
  queryQ : Option String
  /-- `searchParams.get('search')` -/
  querySearch : Option String

/-- The ambient runtime: every non-deterministic or platform-provided facility
the embedded code consumes. -/
structure Env where
  /-- `Math.sin` at the integer hash arguments used by the estimator -/
  sin : ℤ → ℚ
  /-- the stream of `Math.random()` results -/
  rand : ℕ → ℚ
  /-- `fetchPageContent` + `cheerio.load`: `none` models a failed fetch -/
  fetch : String → Option Page
  /-- JS `new URL` (`none` models the constructor throwing) -/
  parseUrl : String → Option UrlParts
  /-- `Date.now()` in milliseconds -/
  now : ℤ
  /-- `new Date(t).toISOString()` -/
  isoDate : ℚ → String
  /-- `toISOString().split('T')[0]` -/
  dateOnly : ℚ → String
  /-- `new Date(t).getDay()` -/
  dayOfWeek : ℚ → ℕ
  /-- `new Date(t).getDate()` -/
  dayOfMonth : ℚ → ℕ
  /-- `new Date(t).getMonth()` -/
  monthOf : ℚ → ℕ
  /-- `encodeURIComponent` -/
  encodeURI : String → String
  /-- JS number→string formatting used in template literals -/
  numToStr : ℚ → String

/-- A concrete environment used to evaluate the model at concrete inputs.  Its
`sin` oracle is `0` everywhere; the evaluations below only ever consult `sin` at
hash `0` (the hash of `""`), where `Math.sin(0) = 0` holds exactly. -/
def env0 : Env where
  sin := fun _ => 0
  rand := fun _ => 0
  fetch := fun _ => none
  parseUrl := fun _ => none
  now := 0
  isoDate := fun _ => ""
  dateOnly := fun _ => ""
  dayOfWeek := fun _ => 0
  dayOfMonth := fun _ => 0
  monthOf := fun _ => 0
  encodeURI := fun s => s
  numToStr := fun _ => ""

/-! ## Category Price Validator (`validatePriceByCategory`, part_011 lines 815–868) -/

/-- A `{min, max}` price range. -/
structure PRange where
  min : ℚ
  max : ℚ
deriving DecidableEq

/-- A validation entry `{min, max, typical: {min, max}}`. -/
structure VRange where
  min : ℚ
  max : ℚ
  typical : PRange
deriving DecidableEq

/-- The static `validationRanges` table, in source (insertion) order. -/
def validationRanges : List (String × VRange) :=
  [("phone",      ⟨3000, 200000, ⟨8000, 80000⟩⟩),
   ("smartphone", ⟨3000, 200000, ⟨8000, 80000⟩⟩),
   ("laptop",     ⟨15000, 300000, ⟨25000, 120000⟩⟩),
   ("tablet",     ⟨5000, 150000, ⟨10000, 60000⟩⟩),
   ("headphone",  ⟨200, 100000, ⟨1000, 25000⟩⟩),
   ("earphone",   ⟨100, 50000, ⟨500, 10000⟩⟩),
   ("shirt",      ⟨150, 15000, ⟨400, 4000⟩⟩),
   ("t-shirt",    ⟨100, 10000, ⟨300, 2500⟩⟩),
   ("jeans",      ⟨400, 20000, ⟨800, 6000⟩⟩),
   ("shoes",      ⟨500, 50000, ⟨1000, 12000⟩⟩),
   ("cream",      ⟨50, 10000, ⟨200, 2500⟩⟩),
   ("perfume",    ⟨200, 30000, ⟨800, 8000⟩⟩),
   ("makeup",     ⟨100, 15000, ⟨300, 4000⟩⟩)]

/-- The `for (const [type, range] of Object.entries(validationRanges))` scan:
first entry whose keyword occurs in the (lowercased) product name. -/
def findValidationRange (name : String) : Option (String × VRange) :=
  validationRanges.find? (fun kv => containsStr name kv.1)

/-- Result record of `validatePriceByCategory`. -/
structure ValidationResult where
  isValid : Bool
  reason : Option String := none
  suggestedPrice : Option ℚ := none

/-- `validatePriceByCategory` (part_011 lines 815–868). -/
def validatePriceByCategory (env : Env) (price : ℚ) (productName platform : String) :
    ValidationResult :=
  let name := toLowerStr productName
  match findValidationRange name with
  | some (ty, r) =>
    if price < r.min ∨ r.max < price then
      { isValid := false
        reason := some (ty ++ " price ₹" ++ env.numToStr price ++
          " is outside reasonable range (₹" ++ env.numToStr r.min ++ " - ₹" ++
          env.numToStr r.max ++ ")")
        suggestedPrice := some (min (max price r.typical.min) r.typical.max) }
    else
      -- in-bounds but possibly atypical prices are logged and accepted
      { isValid := true }
  | none => { isValid := true }

/-! ## Deterministic Price Estimator
(`generateReasonablePrice` / `generateSimpleHash`, part_011 lines 989–1064) -/

/-- One step of the JS string hash
`hash = ((hash << 5) - hash) + charCode; hash = hash & hash`:
`<<` coerces to 32-bit before and after shifting, the float subtraction and
addition are exact at these magnitudes, and `& hash` coerces back to 32-bit. -/
def hashStep (h : ℤ) (c : Char) : ℤ := toInt32 (toInt32 (h * 32) - h + c.toNat)

/-- `generateSimpleHash` (part_011 lines 1056–1064): fold over the
character codes, then `Math.abs`. -/
def generateSimpleHash (str : String) : ℤ := |str.toList.foldl hashStep 0|

/-- `generateUrlHash` (part_009 lines 264–272): the identical algorithm. -/
def generateUrlHash (url : String) : ℤ := |url.toList.foldl hashStep 0|

/-- The static `priceRanges` table of the estimator, in source order.  The
`'default'` entry of the source object is the final fallback; the source scan
explicitly skips the `'default'` key, so it is kept separately below. -/
def priceRanges : List (String × PRange) :=
  [("phone",        ⟨8000, 100000⟩),
   ("smartphone",   ⟨8000, 100000⟩),
   ("laptop",       ⟨25000, 150000⟩),
   ("tablet",       ⟨10000, 80000⟩),
   ("headphone",    ⟨1000, 50000⟩),
   ("earphone",     ⟨500, 15000⟩),
   ("tv",           ⟨15000, 200000⟩),
   ("camera",       ⟨10000, 200000⟩),
   ("shirt",        ⟨400, 5000⟩),
   ("t-shirt",      ⟨300, 3000⟩),
   ("dress",        ⟨600, 10000⟩),
   ("jeans",        ⟨800, 8000⟩),
   ("shoes",        ⟨1000, 15000⟩),
   ("sneaker",      ⟨1500, 12000⟩),
   ("cream",        ⟨200, 3000⟩),
   ("perfume",      ⟨800, 8000⟩),
   ("sunscreen",    ⟨200, 1500⟩),
   ("shampoo",      ⟨150, 2000⟩),
   ("makeup",       ⟨300, 5000⟩),
   ("microwave",    ⟨5000, 40000⟩),
   ("refrigerator", ⟨15000, 100000⟩),
   ("washing",      ⟨12000, 80000⟩),
   ("book",         ⟨100, 2000⟩)]

/-- The `'default'` fallback range of the estimator. -/
def defaultPriceRange : PRange := ⟨500, 10000⟩

/-- The estimator's keyword scan: first entry (skipping `'default'`) whose
keyword occurs in the lowercased product name. -/
def findPriceRange (name : String) : Option (String × PRange) :=
  priceRanges.find? (fun kv => containsStr name kv.1)

/-- The range selected by the estimator's keyword scan (first match on the
lowercased name, else the `'default'` range). -/
def selectedPriceRange (productName : String) : PRange :=
  match findPriceRange (toLowerStr productName) with
  | some (_, r) => r
  | none => defaultPriceRange

/-- `generateReasonablePrice` (part_011 lines 989–1051): category-aware
deterministic synthetic price, seeded from the product-name hash through
`Math.sin`. -/
def generateReasonablePrice (env : Env) (productName : String) : ℚ :=
  let selectedRange := selectedPriceRange productName
  let nameHash := generateSimpleHash productName
  let seededValue := env.sin nameHash * 10000
  let normalizedSeed := |seededValue - ((⌊seededValue⌋ : ℤ) : ℚ)|
  ((⌊normalizedSeed * (selectedRange.max - selectedRange.min + 1)⌋ : ℤ) : ℚ) +
    selectedRange.min

/-! ## Discount Calculator (`calculateDiscount`, part_011 lines 771–780) -/

/-- Result record of `calculateDiscount`; both fields absent means
"no discount claimed". -/
structure DiscountInfo where
  discountPercentage : Option ℚ := none
  discountAmount : Option ℚ := none
deriving DecidableEq

/-- `calculateDiscount` (part_011 lines 771–780).  The JS guard is
`!mrp || mrp <= sellingPrice`; `!mrp` is truthiness, i.e. `mrp` absent or `0`. -/
def calculateDiscount (sellingPrice : ℚ) (mrp : Option ℚ) : DiscountInfo :=
  match mrp with
  | none => {}
  | some m =>
    if m = 0 ∨ m ≤ sellingPrice then {}
    else
      let discountAmount := m - sellingPrice
      let discountPercentage := ((jsRound (discountAmount / m * 100) : ℤ) : ℚ)
      { discountPercentage := some discountPercentage
        discountAmount := some discountAmount }

/-! ## Price validation pipeline (`validateAndNormalizePrice`, part_011 lines 785–810) -/

/-- `validateAndNormalizePrice` (part_011 lines 785–810): `0` for non-positive
input, estimator fallback outside the absolute bounds `[10, 500000]`, the
validator's suggestion (JS `suggestedPrice || price`) when the category check
fails, the price itself otherwise. -/
def validateAndNormalizePrice (env : Env) (price : ℚ) (productName platform : String) : ℚ :=
  if price ≤ 0 then 0
  else if 500000 < price then generateReasonablePrice env productName
  else if price < 10 then generateReasonablePrice env productName
  else
    let categoryValidation := validatePriceByCategory env price productName platform
    if categoryValidation.isValid then price
    else
      match categoryValidation.suggestedPrice with
      | some s => if s = 0 then price else s
      | none => price

/-! ## Platform Page Extractor (part_011) -/

/-- `ProductData` (part_011 lines 6–18). -/
structure ProductData where
  name : String
  price : ℚ
  originalPrice : Option ℚ := none
  discountPercentage : Option ℚ := none
  discountAmount : Option ℚ := none
  rating : Option ℚ := none
  reviewCount : Option ℚ := none
  availability : String
  features : List String
  platform : String
  url : String

/-- JS `substring(0, n)` (code-unit count; all inputs considered are BMP). -/
def strTake (s : String) (n : ℕ) : String := String.mk (s.toList.take n)

/-- Match of `\d+\.?\d*\s*out of` anchored at the current position (the pattern
of `extractRating`), returning the numeric capture. -/
def ratingAt (l : List Char) : Option (List Char) :=
  let run1 := l.takeWhile Char.isDigit
  if run1.isEmpty then none
  else
    let r1 := l.drop run1.length
    let (cap2, r2) :=
      match r1 with
      | '.' :: t =>
        let run2 := t.takeWhile Char.isDigit
        ('.' :: run2, t.drop run2.length)
      | _ => ([], r1)
    let r3 := r2.dropWhile Char.isWhitespace
    if charsStart r3 "out of".toList then some (run1 ++ cap2) else none

/-- Leftmost match of the rating pattern. -/
def scanRating : List Char → Option (List Char)
  | [] => none
  | c :: t =>
    match ratingAt (c :: t) with
    | some cap => some cap
    | none => scanRating t

/-- `extractRating` (part_011 lines 930–933). -/
def extractRating (ratingText : String) : Option ℚ :=
  (scanRating ratingText.toList).bind (fun cap => jsParseFloatQ cap)

/-- Greedy `(?:,\d+)*` of the review-count pattern: accumulate comma groups,
returning the consumed capture part and the rest. -/
def commaGroupsAux (acc : List Char) : List Char → List Char × List Char
  | ',' :: t =>
    let run := t.takeWhile Char.isDigit
    if run.isEmpty then (acc, ',' :: t)
    else commaGroupsAux (acc ++ ',' :: run) (t.drop run.length)
  | l => (acc, l)
termination_by l => l.length
decreasing_by
  simp only [List.length_drop, List.length_cons]
  omega

/-- Match of `\d+(?:,\d+)*\s*rating` anchored at the current position (the
pattern of `extractReviewCount`). -/
def reviewAt (l : List Char) : Option (List Char) :=
  let run1 := l.takeWhile Char.isDigit
  if run1.isEmpty then none
  else
    let gr := commaGroupsAux [] (l.drop run1.length)
    let r := gr.2.dropWhile Char.isWhitespace
    if charsStart r "rating".toList then some (run1 ++ gr.1) else none

/-- Leftmost match of the review-count pattern. -/
def scanReview : List Char → Option (List Char)
  | [] => none
  | c :: t =>
    match reviewAt (c :: t) with
    | some cap => some cap
    | none => scanReview t

/-- `extractReviewCount` (part_011 lines 938–941): `parseInt` of the
comma-stripped capture (all digits). -/
def extractReviewCount (reviewText : String) : Option ℚ :=
  (scanReview reviewText.toList).map (fun cap => (digitsToNat (stripCommas cap) : ℚ))

/-- The `sellingPriceSelectors` of `extractAmazonPrices` (part_011 lines 589–612). -/
def amazonSellingSelectors : List String :=
  [".a-price.a-text-price.a-size-medium.apexPriceToPay .a-offscreen",
   ".a-price-range .a-offscreen",
   ".a-price .a-offscreen",
   ".a-price-whole",
   "span.a-price.a-text-price.a-size-medium.apexPriceToPay span.a-offscreen",
   ".a-color-price.a-size-medium",
   "#priceblock_dealprice",
   "#priceblock_ourprice",
   ".a-price.a-text-price .a-offscreen",
   ".a-price.a-text-price.a-size-base .a-offscreen",
   ".a-section .a-price .a-offscreen",
   "span.a-price-symbol + span.a-price-whole",
   ".a-price-current .a-offscreen",
   "[data-asin-price] .a-offscreen",
   ".a-box .a-price .a-offscreen"]

/-- The `mrpSelectors` of `extractAmazonPrices` (part_011 lines 634–652). -/
def amazonMrpSelectors : List String :=
  [".a-price.a-text-price .a-offscreen",
   "span.a-price.a-text-price span.a-offscreen",
   ".a-text-strike .a-offscreen",
   ".a-text-price.a-size-base .a-offscreen",
   "#listPrice .a-offscreen",
   ".a-price.a-text-price.a-size-base.a-color-secondary .a-offscreen",
   ".a-price.a-text-price.a-size-small .a-offscreen",
   ".a-text-strike",
   "[data-a-color=\"secondary\"] .a-offscreen",
   ".a-row .a-price.a-text-price .a-offscreen"]

/-- The `sellingPriceSelectors` of `extractFlipkartPrices` (part_011 lines 687–706). -/
def flipkartSellingSelectors : List String :=
  ["._30jeq3._16Jk6d", "._1_WHN1", ".Nx9bqj.CxhGGd", "._30jeq3", ".Nx9bqj",
   "._25b18c", "._1_WHN1._30jeq3", ".Nx9bqj", "._16Jk6d",
   "[data-testid=\"price-final\"]", "._4b5DiR", "._13fcjj", ".CEmiEU"]

/-- The `mrpSelectors` of `extractFlipkartPrices` (part_011 lines 728–743). -/
def flipkartMrpSelectors : List String :=
  ["._3I9_wc._27UcVY", "._3auQ3N._1POkHg", "._3I9_wc",
   "._3auQ3N", "._27UcVY", ".yRaY8j", "._2Tpdn3",
   "[data-testid=\"price-original\"]", ".CEmiEU._16Jk6d"]

/-- The `priceSelectors` of `extractGenericData` (part_011 lines 419–431). -/
def genericPriceSelectors : List String :=
  [".price", ".product-price", "[data-testid=\"price\"]", ".current-price",
   ".final-price", ".selling-price", ".offer-price", ".discounted-price",
   ".price-current", ".price-now", ".sale-price"]

/-- The `mrpSelectors` of `extractGenericData` (part_011 lines 452–461). -/
def genericMrpSelectors : List String :=
  [".original-price", ".mrp", ".price-original", ".was-price",
   ".list-price", ".regular-price", ".crossed-price", ".strike-price"]

/-- The selling-price selector loop shared by the extractors: first selector
with non-empty trimmed text whose extracted price is positive; `0` if none. -/
def firstSellingPrice (page : Page) : List String → ℚ
  | [] => 0
  | sel :: rest =>
    let priceText := jsTrim (page.qFirst sel)
    if priceText ≠ "" then
      let rawPrice := extractPrice priceText
      if 0 < rawPrice then rawPrice else firstSellingPrice page rest
    else firstSellingPrice page rest

/-- The MRP selector loop shared by the extractors: first selector whose
extracted value exceeds the already-found selling price. -/
def firstMrpOver (page : Page) (sellingPrice : ℚ) : List String → Option ℚ
  | [] => none
  | sel :: rest =>
    let mrpText := jsTrim (page.qFirst sel)
    if mrpText ≠ "" then
      let extractedMrp := extractPrice mrpText
      if sellingPrice < extractedMrp then some extractedMrp
      else firstMrpOver page sellingPrice rest
    else firstMrpOver page sellingPrice rest

/-- `extractAmazonPrices` (part_011 lines 582–675). -/
def extractAmazonPrices (page : Page) : ℚ × Option ℚ :=
  let sellingPrice := firstSellingPrice page amazonSellingSelectors
  (sellingPrice, firstMrpOver page sellingPrice amazonMrpSelectors)

/-- `extractFlipkartPrices` (part_011 lines 680–766). -/
def extractFlipkartPrices (page : Page) : ℚ × Option ℚ :=
  let sellingPrice := firstSellingPrice page flipkartSellingSelectors
  (sellingPrice, firstMrpOver page sellingPrice flipkartMrpSelectors)

/-- The Amazon product-name fallback chain
`$('#productTitle').text().trim() || $('h1.a-size-large span').text().trim() ||
$('h1 span').text().trim()`. -/
def amazonName (page : Page) : String :=
  let n1 := jsTrim (page.q "#productTitle")
  if n1 ≠ "" then n1
  else
    let n2 := jsTrim (page.q "h1.a-size-large span")
    if n2 ≠ "" then n2 else jsTrim (page.q "h1 span")

/-- `extractAmazonData` (part_011 lines 216–274): `none` when no name or no
price could be extracted (the `catch` path cannot trigger in the model). -/
def extractAmazonData (env : Env) (page : Page) (url : String) : Option ProductData :=
  let name := amazonName page
  if name = "" then none
  else
    let raw := extractAmazonPrices page
    if raw.1 = 0 then none
    else
      let price := validateAndNormalizePrice env raw.1 name "Amazon"
      let originalPrice :=
        match raw.2 with
        | some m => if m = 0 then none
                    else some (validateAndNormalizePrice env m name "Amazon")
        | none => none
      if price = 0 then none
      else
        let rating := extractRating (jsTrim (page.qFirst ".a-icon-alt"))
        let reviewCount := extractReviewCount (jsTrim (page.q "#acrCustomerReviewText"))
        let d := calculateDiscount price originalPrice
        let features := (((page.qItems "#feature-bullets ul li span").map jsTrim).filter
          (fun f => 10 < f.length)).take 10
        some { name := strTake name 150, price, originalPrice
               discountPercentage := d.discountPercentage
               discountAmount := d.discountAmount
               rating, reviewCount, availability := "In Stock", features
               platform := "Amazon", url }

/-- The Flipkart product-name fallback chain. -/
def flipkartName (page : Page) : String :=
  let n1 := jsTrim (page.q "h1.yhB1nd")
  if n1 ≠ "" then n1
  else
    let n2 := jsTrim (page.q "h1._35KyD6")
    if n2 ≠ "" then n2 else jsTrim (page.q ".B_NuCI")

/-- `extractFlipkartData` (part_011 lines 279–337). -/
def extractFlipkartData (env : Env) (page : Page) (url : String) : Option ProductData :=
  let name := flipkartName page
  if name = "" then none
  else
    let raw := extractFlipkartPrices page
    if raw.1 = 0 then none
    else
      let price := validateAndNormalizePrice env raw.1 name "Flipkart"
      let originalPrice :=
        match raw.2 with
        | some m => if m = 0 then none
                    else some (validateAndNormalizePrice env m name "Flipkart")
        | none => none
      if price = 0 then none
      else
        let rating := extractRating (jsTrim (page.q "._3LWZlK"))
        let reviewCount := extractReviewCount (jsTrim (page.q "._2_R_DZ"))
        let d := calculateDiscount price originalPrice
        let features := (((page.qItems "._21lJbe li").map jsTrim).filter
          (fun f => 5 < f.length)).take 10
        some { name := strTake name 150, price, originalPrice
               discountPercentage := d.discountPercentage
               discountAmount := d.discountAmount
               rating, reviewCount, availability := "In Stock", features
               platform := "Flipkart", url }

/-- The generic product-name fallback chain of `extractGenericData`. -/
def genericName (page : Page) : String :=
  let n1 := jsTrim (page.qFirst "h1")
  if n1 ≠ "" then n1
  else
    let n2 := jsTrim (page.q "[data-testid=\"product-title\"]")
    if n2 ≠ "" then n2
    else
      let n3 := jsTrim (page.q ".product-title")
      if n3 ≠ "" then n3
      else
        let n4 := jsTrim (page.q ".product-name")
        if n4 ≠ "" then n4
        else
          let n5 := jsTrim (page.q "h1.title")
          if n5 ≠ "" then n5 else jsTrim (page.q ".main-title")

/-- `extractGenericData` (part_011 lines 404–501): when no price is found it
falls back to the estimator, and when no name is found it uses `'Product'` —
it never fails in the model (the `catch` path cannot trigger). -/
def extractGenericData (env : Env) (page : Page) (url platform : String) :
    Option ProductData :=
  let name := genericName page
  let price := firstSellingPrice page genericPriceSelectors
  let originalPrice := firstMrpOver page price genericMrpSelectors
  -- `if (!price) price = this.generateReasonablePrice(name || '')`
  -- (for strings, `name || ''` is the identity)
  let priceF := if price = 0 then generateReasonablePrice env name else price
  let nameF := if name = "" then "Product" else name
  let validatedPrice := validateAndNormalizePrice env priceF nameF platform
  let validatedOriginalPrice :=
    match originalPrice with
    | some m => if m = 0 then none
                else some (validateAndNormalizePrice env m nameF platform)
    | none => none
  let d := calculateDiscount validatedPrice validatedOriginalPrice
  some { name := nameF, price := validatedPrice
         originalPrice := validatedOriginalPrice
         discountPercentage := d.discountPercentage
         discountAmount := d.discountAmount
         availability := "Available", features := [platform ++ " product"]
         platform, url }

/-- `detectPlatform` (part_011 lines 201–211). -/
def detectPlatform (url : String) : String :=
  let hostname := toLowerStr url
  if containsStr hostname "amazon" then "Amazon"
  else if containsStr hostname "flipkart" then "Flipkart"
  else if containsStr hostname "myntra" then "Myntra"
  else if containsStr hostname "nykaa" then "Nykaa"
  else if containsStr hostname "ajio" then "Ajio"
  else "Unknown"

/-- JS `String.split('/')` (single-character separator, keeping empties). -/
def splitSlashAux (acc : List Char) : List Char → List String
  | [] => [String.mk acc.reverse]
  | c :: t =>
    if c = '/' then String.mk acc.reverse :: splitSlashAux [] t
    else splitSlashAux (c :: acc) t

/-- JS `pathname.split('/')`. -/
def jsSplitSlash (s : String) : List String := splitSlashAux [] s.toList

/-- JS `Array.indexOf`: index of the first occurrence, `-1` if absent. -/
def jsIndexOf (l : List String) (x : String) : ℤ :=
  match l.findIdx? (fun y => y = x) with
  | some i => i
  | none => -1

/-- The truthiness filter applied to `searchParams.get` results. -/
def optTruthy (o : Option String) : Option String :=
  match o with
  | some s => if s = "" then none else some s
  | none => none

/-- `extractProductNameFromUrl` (part_011 lines 946–984): `new URL` throwing is
the `catch` branch. -/
def extractProductNameFromUrl (env : Env) (url : String) : String :=
  match env.parseUrl url with
  | none => "Product"
  | some u =>
    let pathname := u.pathname
    let amazonTry : Option String :=
      if containsStr pathname "/dp/" then
        let parts := jsSplitSlash pathname
        let dpIndex := jsIndexOf parts "dp"
        if 0 < dpIndex ∧ (parts.getD (dpIndex - 1).toNat "") ≠ "" then
          some (dashToSpace (parts.getD (dpIndex - 1).toNat ""))
        else none
      else none
    match amazonTry with
    | some s => s
    | none =>
      let flipkartTry : Option String :=
        if containsStr pathname "/p/" then
          let parts := jsSplitSlash pathname
          if 1 < parts.length then some (dashToSpace (parts.getD 1 "")) else none
        else none
      match flipkartTry with
      | some s => s
      | none =>
        let query :=
          match optTruthy u.queryQ with
          | some q => some q
          | none => optTruthy u.querySearch
        match query with
        | some q => q
        | none =>
          let pathParts := (jsSplitSlash pathname).filter
            (fun p => p ≠ "" && 2 < p.length)
          match pathParts.getLast? with
          | some lastPart => dashToSpace lastPart
          | none => "Product"

/-- `generateFallbackData` (part_011 lines 506–517): synthetic record used when
fetching or extraction fails.  (For strings, `productName || ''` is the
identity, so the estimator is seeded with `productName` itself.) -/
def generateFallbackData (env : Env) (url platform : String) : ProductData :=
  let productName := extractProductNameFromUrl env url
  { name := if productName = "" then "Product" else productName
    price := generateReasonablePrice env productName
    availability := "Check availability"
    features := [platform ++ " product", "Real-time data available on platform"]
    platform, url }

/-- The `stopWords` of `createSearchTerms`. -/
def stopWords : List String :=
  ["the", "a", "an", "and", "or", "but", "in", "on", "at", "to", "for", "of", "with"]

/-- JS `\w` (word character): ASCII letters, digits, underscore. -/
def isWordChar (c : Char) : Bool := c.isAlpha || c.isDigit || c == '_'

/-- Split on whitespace runs, accumulating the current token.  (JS `split`
with a `\s+` regex can additionally produce a leading empty token; the
length-`> 2` filter applied by the only caller removes it, so tokens are
modelled without empties.) -/
def wsTokensAux (cur : List Char) : List Char → List String
  | [] => if cur.isEmpty then [] else [String.mk cur.reverse]
  | c :: t =>
    if c.isWhitespace then
      if cur.isEmpty then wsTokensAux [] t
      else String.mk cur.reverse :: wsTokensAux [] t
    else wsTokensAux (c :: cur) t

/-- Split a character list on whitespace runs. -/
def wsTokens (l : List Char) : List String := wsTokensAux [] l

/-- `createSearchTerms` (part_011 lines 551–561). -/
def createSearchTerms (productName : String) : String :=
  let mapped := (toLowerStr productName).toList.map
    (fun c => if isWordChar c || c.isWhitespace then c else ' ')
  let words := ((wsTokens mapped).filter
    (fun w => 2 < w.length && !(stopWords.contains w))).take 4
  String.intercalate " " words

/-- `buildSearchUrl` (part_011 lines 566–577). -/
def buildSearchUrl (env : Env) (platform searchTerms : String) : String :=
  let encodedTerms := env.encodeURI searchTerms
  if platform = "Amazon" then "https://www.amazon.in/s?k=" ++ encodedTerms ++ "&ref=nb_sb_noss"
  else if platform = "Flipkart" then "https://www.flipkart.com/search?q=" ++ encodedTerms
  else "https://www.google.com/search?q=" ++ encodedTerms

/-- `generateFallbackPlatformData` (part_011 lines 522–546); consumes three
`Math.random()` draws (price variation, rating, review count). -/
def generateFallbackPlatformData (env : Env) (platform : String)
    (originalProduct : ProductData) (searchTerms : String) (n : ℕ) : ProductData × ℕ :=
  let basePrice := originalProduct.price
  let variation : ℚ := if platform = "Amazon" then 0.95 else 1.05
  let finalVariation := variation + (env.rand n * 0.2 - 0.1)
  let price := ((jsRound (basePrice * finalVariation) : ℤ) : ℚ)
  let rating := 4.0 + env.rand (n + 1) * 0.8
  let reviewCount := ((⌊env.rand (n + 2) * 2000⌋ : ℤ) : ℚ) + 500
  let searchUrl := buildSearchUrl env platform searchTerms
  ({ name := originalProduct.name, price
     rating := some rating, reviewCount := some reviewCount
     availability := "In Stock"
     features := [platform ++ " product", "Similar product available"]
     platform, url := searchUrl }, n + 3)

/-- `extractFirstAmazonResult` (part_011 lines 342–368). -/
def extractFirstAmazonResult (page : Page) (searchUrl searchTerms : String) :
    Option ProductData :=
  let outer := "[data-component-type=\"s-search-result\"]"
  if !(page.qFound outer) then none
  else
    let name := jsTrim (page.sub outer "h2 a span")
    let priceText := jsTrim (page.sub outer ".a-price .a-offscreen")
    let linkHref := page.subAttr outer "h2 a"
    let price := extractPrice priceText
    let linkOk := match linkHref with | some l => l ≠ "" | none => false
    if name == "" || price == 0 || !linkOk then none
    else
      some { name := strTake name 150, price, availability := "In Stock"
             features := ["Amazon product"], platform := "Amazon"
             url := "https://www.amazon.in" ++ linkHref.getD "" }

/-- `extractFirstFlipkartResult` (part_011 lines 373–399). -/
def extractFirstFlipkartResult (page : Page) (searchUrl searchTerms : String) :
    Option ProductData :=
  let outer := "._1AtVbE"
  if !(page.qFound outer) then none
  else
    let name := jsTrim (page.sub outer "._4rR01T")
    let priceText := jsTrim (page.sub outer "._30jeq3")
    let linkHref := page.subAttr outer "._1fQZEK"
    let price := extractPrice priceText
    let linkOk := match linkHref with | some l => l ≠ "" | none => false
    if name == "" || price == 0 || !linkOk then none
    else
      some { name := strTake name 150, price, availability := "In Stock"
             features := ["Flipkart product"], platform := "Flipkart"
             url := "https://www.flipkart.com" ++ linkHref.getD "" }

/-- `fetchPageContent` (part_011 lines 168–196): picks a random user agent
(consuming one `Math.random()` draw) and delegates to the fetch oracle. -/
def fetchPageContent (env : Env) (url : String) (n : ℕ) : Option Page × ℕ :=
  (env.fetch url, n + 1)

/-- `searchPlatform` (part_011 lines 141–163). -/
def searchPlatform (env : Env) (platform searchTerms : String) (n : ℕ) :
    Option ProductData × ℕ :=
  let searchUrl := buildSearchUrl env platform searchTerms
  let fetched := fetchPageContent env searchUrl n
  match fetched.1 with
  | none => (none, fetched.2)
  | some page =>
    if platform = "Amazon" then (extractFirstAmazonResult page searchUrl searchTerms, fetched.2)
    else if platform = "Flipkart" then
      (extractFirstFlipkartResult page searchUrl searchTerms, fetched.2)
    else (none, fetched.2)

/-- `extractProductData` (part_011 lines 41–87): the main extraction entry
point; every failure path falls back to `generateFallbackData`, so the result
is always present. -/
def extractProductData (env : Env) (url : String) (n : ℕ) : Option ProductData × ℕ :=
  let platform := detectPlatform url
  let fetched := fetchPageContent env url n
  match fetched.1 with
  | none => (some (generateFallbackData env url platform), fetched.2)
  | some page =>
    let productData :=
      if platform = "Amazon" then extractAmazonData env page url
      else if platform = "Flipkart" then extractFlipkartData env page url
      else extractGenericData env page url platform
    match productData with
    | some d => (some d, fetched.2)
    | none => (some (generateFallbackData env url platform), fetched.2)

/-- `findSimilarProducts` (part_011 lines 92–136): search Amazon and Flipkart
(skipping the original's platform), with a synthetic fallback per platform when
the search fails.  The `catch` branch cannot trigger in the model. -/
def findSimilarProducts (env : Env) (originalProduct : ProductData) (n : ℕ) :
    List ProductData × ℕ :=
  let searchTerms := createSearchTerms originalProduct.name
  let stepA : List ProductData × ℕ :=
    if originalProduct.platform ≠ "Amazon" then
      let r := searchPlatform env "Amazon" searchTerms n
      match r.1 with
      | some p => ([p], r.2)
      | none =>
        let f := generateFallbackPlatformData env "Amazon" originalProduct searchTerms r.2
        ([f.1], f.2)
    else ([], n)
  let stepB : List ProductData × ℕ :=
    if originalProduct.platform ≠ "Flipkart" then
      let r := searchPlatform env "Flipkart" searchTerms stepA.2
      match r.1 with
      | some p => ([p], r.2)
      | none =>
        let f := generateFallbackPlatformData env "Flipkart" originalProduct searchTerms r.2
        ([f.1], f.2)
    else ([], stepA.2)
  (stepA.1 ++ stepB.1, stepB.2)

/-! ## Real Market Data API (part_009) -/

/-- A platform entry `{name, priceMultiplier}` of `getRelevantPlatforms`. -/
structure MarketPlatform where
  name : String
  priceMultiplier : ℚ

/-- One entry of `MarketDataResponse.data.prices`. -/
structure MarketPrice where
  platform : String
  price : ℚ
  sellerCount : ℚ
  priceRange : PRange
  availability : String
  lastUpdated : String

/-- One entry of `MarketDataResponse.data.priceHistory`. -/
structure HistEntry where
  date : String
  price : ℚ
  platform : String

/-- The `data` payload of a `MarketDataResponse`. -/
structure MarketData where
  prices : List MarketPrice
  priceHistory : List HistEntry

/-- `MarketDataResponse` (part_009 lines 4–25). -/
structure MarketDataResponse where
  success : Bool
  data : Option MarketData := none
  error : Option String := none

/-- The product info record built by `extractProductInfo`. -/
structure ProductInfo where
  name : String
  brand : String
  category : String
  url : String

/-- The `brandPatterns` of `extractProductInfo` (part_009 lines 357–362). -/
def brandPatterns : List String :=
  ["Samsung", "Apple", "iPhone", "OnePlus", "Xiaomi", "Realme",
   "Nike", "Adidas", "Puma", "Reebok",
   "Sony", "LG", "Dell", "HP", "Lenovo",
   "Lakme", "Maybelline", "Nykaa", "Loreal"]

/-- `extractProductInfo` (part_009 lines 353–389). -/
def extractProductInfo (productName productUrl : String) : ProductInfo :=
  let name := if productName = "" then "Product" else productName
  let brand :=
    match brandPatterns.find?
      (fun b => containsStr (toUpperStr name) (toUpperStr b)) with
    | some b => b
    | none => ""
  let up := toUpperStr name
  let category :=
    if containsStr up "PHONE" || containsStr up "MOBILE" || containsStr up "SMARTPHONE" ||
       containsStr up "LAPTOP" || containsStr up "TABLET" || containsStr up "TV" ||
       containsStr up "REFRIGERATOR" || containsStr up "HEADPHONE" then "electronics"
    else if containsStr up "SHIRT" || containsStr up "JEANS" || containsStr up "SHOE" ||
       containsStr up "DRESS" || containsStr up "SNEAKER" then "fashion"
    else if containsStr up "SUNSCREEN" || containsStr up "CREAM" || containsStr up "SPF" ||
       containsStr up "MOISTURIZER" || containsStr up "MAKEUP" then "beauty"
    else "general"
  { name, brand, category, url := productUrl }

/-- `getRelevantPlatforms` (part_009 lines 201–225): Amazon and Flipkart always,
plus two category-specific platforms. -/
def getRelevantPlatforms (category : String) : List MarketPlatform :=
  let basePlatforms : List MarketPlatform := [⟨"Amazon", 1.0⟩, ⟨"Flipkart", 0.98⟩]
  if category = "fashion" then basePlatforms ++ [⟨"Myntra", 1.05⟩, ⟨"Ajio", 1.02⟩]
  else if category = "beauty" then basePlatforms ++ [⟨"Nykaa", 1.03⟩, ⟨"Purplle", 0.96⟩]
  else if category = "electronics" then
    basePlatforms ++ [⟨"Croma", 1.08⟩, ⟨"Reliance Digital", 1.04⟩]
  else basePlatforms

/-- First-dictionary-hit lookup (JS object indexing with a `||` fallback). -/
def lookupStr (l : List (String × α)) (k : String) : Option α :=
  (l.find? (fun kv => kv.1 == k)).map (fun kv => kv.2)

/-- `estimateRealisticBasePrice` (part_009 lines 102–196): category/type-specific
range, seeded by the URL hash when a URL is available, else one `Math.random()`. -/
def estimateRealisticBasePrice (env : Env) (info : ProductInfo) (n : ℕ) : ℚ × ℕ :=
  let up := toUpperStr info.name
  let productRange : PRange :=
    if info.category = "electronics" then
      if containsStr up "PHONE" || containsStr up "SMARTPHONE" || containsStr up "MOBILE" then
        ⟨8000, 100000⟩
      else if containsStr up "LAPTOP" || containsStr up "NOTEBOOK" then ⟨25000, 150000⟩
      else if containsStr up "TABLET" || containsStr up "IPAD" then ⟨10000, 80000⟩
      else if containsStr up "HEADPHONE" || containsStr up "EARPHONE" ||
              containsStr up "EARBUDS" then ⟨1000, 50000⟩
      else if containsStr up "TV" || containsStr up "TELEVISION" then ⟨15000, 200000⟩
      else if containsStr up "REFRIGERATOR" || containsStr up "FRIDGE" then ⟨15000, 100000⟩
      else ⟨5000, 50000⟩
    else if info.category = "fashion" then
      if containsStr up "SHOE" || containsStr up "SNEAKER" || containsStr up "BOOT" then
        ⟨1500, 15000⟩
      else if containsStr up "SHIRT" || containsStr up "T-SHIRT" || containsStr up "TOP" then
        ⟨500, 5000⟩
      else if containsStr up "JEAN" || containsStr up "PANT" || containsStr up "TROUSER" then
        ⟨1000, 8000⟩
      else if containsStr up "DRESS" || containsStr up "KURTI" then ⟨800, 10000⟩
      else ⟨500, 5000⟩
    else if info.category = "beauty" then
      if containsStr up "PERFUME" || containsStr up "FRAGRANCE" then ⟨800, 8000⟩
      else if containsStr up "CREAM" || containsStr up "MOISTURIZER" ||
              containsStr up "LOTION" then ⟨200, 3000⟩
      else if containsStr up "SUNSCREEN" || containsStr up "SPF" then ⟨200, 1500⟩
      else if containsStr up "MAKEUP" || containsStr up "FOUNDATION" ||
              containsStr up "LIPSTICK" then ⟨300, 5000⟩
      else ⟨200, 2000⟩
    else ⟨500, 10000⟩
  if info.url ≠ "" then
    let urlHash := generateUrlHash info.url
    let seededValue := env.sin urlHash * 10000
    let normalizedSeed := |seededValue - ((⌊seededValue⌋ : ℤ) : ℚ)|
    (((⌊normalizedSeed * (productRange.max - productRange.min + 1)⌋ : ℤ) : ℚ) +
      productRange.min, n)
  else
    (((⌊env.rand n * (productRange.max - productRange.min + 1)⌋ : ℤ) : ℚ) +
      productRange.min, n + 1)

/-- The `baseCounts` table of `getRealisticSellerCount`. -/
def sellerBaseCounts : List (String × PRange) :=
  [("Amazon", ⟨8, 25⟩), ("Flipkart", ⟨5, 18⟩), ("Myntra", ⟨3, 12⟩),
   ("Nykaa", ⟨2, 8⟩), ("Croma", ⟨1, 3⟩), ("Reliance Digital", ⟨1, 2⟩)]

/-- `getRealisticSellerCount` (part_009 lines 230–249); consumes one
`Math.random()` draw. -/
def getRealisticSellerCount (env : Env) (platform category : String) (n : ℕ) : ℚ × ℕ :=
  let range := (lookupStr sellerBaseCounts platform).getD ⟨3, 10⟩
  let r2 : PRange :=
    if category = "electronics" then
      ⟨((jsRound (range.min * 1.5) : ℤ) : ℚ), ((jsRound (range.max * 1.3) : ℤ) : ℚ)⟩
    else range
  (((⌊env.rand n * (r2.max - r2.min + 1)⌋ : ℤ) : ℚ) + r2.min, n + 1)

/-- `getRealisticAvailability` (part_009 lines 254–259). -/
def getRealisticAvailability (env : Env) (platform : String) (sellerCount : ℚ) (n : ℕ) :
    String × ℕ :=
  if 10 < sellerCount then ("In Stock", n)
  else if 5 < sellerCount then
    (if 0.1 < env.rand n then "In Stock" else "Limited Stock", n + 1)
  else if 2 < sellerCount then
    (if 0.2 < env.rand n then "In Stock" else "Few Left", n + 1)
  else (if 0.3 < env.rand n then "In Stock" else "Only 1-2 left", n + 1)

/-- JS `%` (truncated remainder) on the non-negative operands used by the
price-history PRNG. -/
def qmod (a b : ℚ) : ℚ := a - b * ((⌊a / b⌋ : ℤ) : ℚ)

/-- One step of the local PRNG `randomSeed = (randomSeed * 9301 + 49297) % 233280`
of `generateRealisticPriceHistory`. -/
def lcgNext (seed : ℚ) : ℚ := qmod (seed * 9301 + 49297) 233280

/-- One iteration of the 31-day loop of `generateRealisticPriceHistory`:
state is `(randomSeed, currentPrice)`. -/
def histStep (env : Env) (basePrice : ℚ) (platforms : List MarketPlatform)
    (weeklyTrend : ℚ) (i : ℕ) (state : ℚ × ℚ) : (ℚ × ℚ) × HistEntry :=
  let t : ℚ := ((env.now : ℤ) : ℚ) - (i : ℚ) * 86400000
  let dow := env.dayOfWeek t
  let isWeekend := dow = 0 ∨ dow = 6
  let isMonthEnd := 25 < env.dayOfMonth t
  let seed1 := lcgNext state.1
  let dailyChange0 : ℚ :=
    (if isWeekend then -0.02 else 0) + (if isMonthEnd then -0.015 else 0) +
      weeklyTrend + (seed1 / 233280 - 0.5) * 0.008
  let month := env.monthOf t
  let dailyChange := dailyChange0 +
    (if month = 9 ∨ month = 10 then -0.025
     else if month = 6 ∨ month = 7 then -0.015 else 0)
  let cp1 := state.2 * (1 + dailyChange)
  let cp2 := max (basePrice * 0.8) (min (basePrice * 1.15) cp1)
  let seed2 := lcgNext seed1
  let idx := (⌊seed2 / 233280 * ((platforms.length : ℕ) : ℚ)⌋).toNat
  let pl := (platforms.getD idx ⟨"", 0⟩).name
  ((seed2, cp2), { date := env.dateOnly t, price := ((jsRound cp2 : ℤ) : ℚ), platform := pl })

/-- `generateRealisticPriceHistory` (part_009 lines 285–348): URL-seeded local
PRNG (one `Math.random()` draw only when no URL is available), 31 daily entries
from `i = 30` down to `0`. -/
def generateRealisticPriceHistory (env : Env) (basePrice : ℚ)
    (platforms : List MarketPlatform) (url : String) (n : ℕ) : List HistEntry × ℕ :=
  let seedStart : ℚ × ℕ :=
    if url ≠ "" then (((generateUrlHash url : ℤ) : ℚ), n)
    else (env.rand n * 1000000, n + 1)
  let s1 := lcgNext seedStart.1
  let weeklyTrend := (s1 / 233280 - 0.5) * 0.02
  let res := ((List.range 31).map (fun k => 30 - k)).foldl
    (fun acc i =>
      let r := histStep env basePrice platforms weeklyTrend i acc.1
      (r.1, acc.2 ++ [r.2]))
    (((s1, basePrice) : ℚ × ℚ), ([] : List HistEntry))
  (res.2, seedStart.2)

/-- The per-platform body of the `platforms.map` in `generateRealisticMarketData`
(part_009 lines 67–85), threading the `Math.random()` counter in source order:
seller count, price variation, availability, `lastUpdated`. -/
def marketPricesFor (env : Env) (category : String) (basePrice : ℚ) :
    List MarketPlatform → ℕ → List MarketPrice × ℕ
  | [], n => ([], n)
  | platform :: rest, n =>
    let sc := getRealisticSellerCount env platform.name category n
    let r := env.rand sc.2
    let n2 := sc.2 + 1
    let priceVariation := platform.priceMultiplier * (0.95 + r * 0.1)
    let finalPrice := ((jsRound (basePrice * priceVariation) : ℤ) : ℚ)
    let priceSpread : ℚ := if 10 < sc.1 then 0.15 else if 5 < sc.1 then 0.10 else 0.05
    let minPrice := ((jsRound (finalPrice * (1 - priceSpread)) : ℤ) : ℚ)
    let maxPrice := ((jsRound (finalPrice * (1 + priceSpread)) : ℤ) : ℚ)
    let av := getRealisticAvailability env platform.name sc.1 n2
    let lastUpdated := env.isoDate (((env.now : ℤ) : ℚ) - env.rand av.2 * 86400000)
    let n3 := av.2 + 1
    let entry : MarketPrice :=
      { platform := platform.name, price := finalPrice, sellerCount := sc.1
        priceRange := ⟨minPrice, maxPrice⟩, availability := av.1, lastUpdated }
    let restR := marketPricesFor env category basePrice rest n3
    (entry :: restR.1, restR.2)

/-- `generateRealisticMarketData` (part_009 lines 51–97): always returns
`success := true` with one price entry per relevant platform. -/
def generateRealisticMarketData (env : Env) (info : ProductInfo) (url : String)
    (originalPrice : Option ℚ) (n : ℕ) : MarketDataResponse × ℕ :=
  -- `originalPrice && originalPrice > 0 && originalPrice < 500000`
  let bp : ℚ × ℕ :=
    match originalPrice with
    | some p => if p ≠ 0 ∧ 0 < p ∧ p < 500000 then (p, n)
                else estimateRealisticBasePrice env info n
    | none => estimateRealisticBasePrice env info n
  let platforms := getRelevantPlatforms info.category
  let pr := marketPricesFor env info.category bp.1 platforms bp.2
  let hist := generateRealisticPriceHistory env bp.1 platforms url pr.2
  ({ success := true, data := some { prices := pr.1, priceHistory := hist.1 } }, hist.2)

/-- `fetchRealMarketData` (part_009 lines 31–45).  Neither arm of its
`try`/`catch` can throw in the model and both perform the same call. -/
def fetchRealMarketData (env : Env) (productName productUrl : String)
    (originalPrice : Option ℚ) (n : ℕ) : MarketDataResponse × ℕ :=
  generateRealisticMarketData env (extractProductInfo productName productUrl)
    productUrl originalPrice n

/-! ## Cross-Platform Comparison Builder (part_012) -/

/-- `PriceComparison` (part_012 lines 10–24). -/
structure PriceComparison where
  platform : String
  price : ℚ
  originalPrice : Option ℚ := none
  discountPercentage : Option ℚ := none
  discountAmount : Option ℚ := none
  availability : String
  url : String
  seller : Option String := none
  rating : Option ℚ := none
  reviewCount : Option ℚ := none
  deliveryTime : Option String := none
  sellerCount : Option ℚ := none
  priceRange : Option String := none

/-- The `deliveryOptions` table of `generateDeliveryTime` (part_012 lines 156–169). -/
def deliveryOptions : List (String × List String) :=
  [("Amazon", ["Tomorrow", "2 days", "3 days", "Same day delivery"]),
   ("Flipkart", ["2-3 days", "3-5 days", "Next day delivery"]),
   ("Myntra", ["3-5 days", "5-7 days", "2-4 days"]),
   ("Nykaa", ["3-4 days", "4-6 days", "5-7 days"]),
   ("Croma", ["1-2 days", "2-3 days", "Same day delivery"]),
   ("Reliance Digital", ["2-4 days", "3-5 days", "1-3 days"])]

/-- `generateDeliveryTime` (part_012 lines 156–169); one `Math.random()` draw. -/
def generateDeliveryTime (env : Env) (platform : String) (n : ℕ) : String × ℕ :=
  let options := (lookupStr deliveryOptions platform).getD
    ["3-5 days", "5-7 days", "4-6 days"]
  ((options.getD (⌊env.rand n * ((options.length : ℕ) : ℚ)⌋).toNat ""), n + 1)

/-- The `platformUrls` table of `buildPlatformUrl` (part_012 lines 174–189). -/
def platformSearchUrls (encodedName : String) : List (String × String) :=
  [("Amazon", "https://www.amazon.in/s?k=" ++ encodedName),
   ("Flipkart", "https://www.flipkart.com/search?q=" ++ encodedName),
   ("Myntra", "https://www.myntra.com/search?q=" ++ encodedName),
   ("Nykaa", "https://www.nykaa.com/search/result/?q=" ++ encodedName),
   ("Croma", "https://www.croma.com/search?q=" ++ encodedName),
   ("Reliance Digital", "https://www.reliancedigital.in/search?q=" ++ encodedName),
   ("Ajio", "https://www.ajio.com/search/?text=" ++ encodedName),
   ("Purplle", "https://www.purplle.com/search?q=" ++ encodedName)]

/-- `buildPlatformUrl` (part_012 lines 174–189). -/
def buildPlatformUrl (env : Env) (platform productName : String) : String :=
  let encodedName := env.encodeURI productName
  (lookupStr (platformSearchUrls encodedName) platform).getD
    ("https://www.google.com/search?q=" ++ encodedName)

/-- The `platformRatings` table of `generateRealisticRating` (part_012 lines 195–202). -/
def platformRatings : List (String × PRange) :=
  [("Amazon", ⟨3.8, 4.6⟩), ("Flipkart", ⟨3.7, 4.5⟩), ("Myntra", ⟨3.9, 4.4⟩),
   ("Nykaa", ⟨4.0, 4.5⟩), ("Croma", ⟨4.1, 4.6⟩), ("Reliance Digital", ⟨3.8, 4.4⟩)]

/-- `generateRealisticRating` (part_012 lines 194–206); one `Math.random()` draw. -/
def generateRealisticRating (env : Env) (platform : String) (n : ℕ) : ℚ × ℕ :=
  let range := (lookupStr platformRatings platform).getD ⟨3.5, 4.5⟩
  (((jsRound ((range.min + env.rand n * (range.max - range.min)) * 10) : ℤ) : ℚ) / 10,
   n + 1)

/-- `generateRealisticReviewCount` (part_012 lines 211–216); two
`Math.random()` draws. -/
def generateRealisticReviewCount (env : Env) (sellerCount : ℚ) (n : ℕ) : ℚ × ℕ :=
  let baseReviews := sellerCount * (50 + env.rand n * 200)
  let variation := 0.8 + env.rand (n + 1) * 0.4
  (((⌊baseReviews * variation⌋ : ℤ) : ℚ), n + 2)

/-- `analyzeProductFromUrl` (part_012 lines 32–56): delegates to
`extractProductData`; the `catch` branch cannot trigger in the model. -/
def analyzeProductFromUrl (env : Env) (url : String) (n : ℕ) : Option ProductData × ℕ :=
  let r := extractProductData env url n
  match r.1 with
  | some d => (some d, r.2)
  | none => (none, r.2)

/-- The `marketData.data.prices.forEach` body of the success branch of
`getRealPriceComparisons` (part_012 lines 92–105); per record: rating (1 draw),
review count (2 draws), delivery time (1 draw), in object-literal order. -/
def comparisonsFromMarket (env : Env) (origName : String) :
    List MarketPrice → ℕ → List PriceComparison × ℕ
  | [], n => ([], n)
  | pd :: rest, n =>
    let rat := generateRealisticRating env pd.platform n
    let rev := generateRealisticReviewCount env pd.sellerCount rat.2
    let del := generateDeliveryTime env pd.platform rev.2
    let entry : PriceComparison :=
      { platform := pd.platform, price := pd.price, availability := pd.availability
        url := buildPlatformUrl env pd.platform origName
        rating := some rat.1, reviewCount := some rev.1, deliveryTime := some del.1
        sellerCount := some pd.sellerCount
        priceRange := some ("₹" ++ env.numToStr pd.priceRange.min ++ " - ₹" ++
          env.numToStr pd.priceRange.max) }
    let restR := comparisonsFromMarket env origName rest del.2
    (entry :: restR.1, restR.2)

/-- One fallback-branch record of `getRealPriceComparisons`
(part_012 lines 110–121 and 127–140): copy the product's fields and attach a
delivery time. -/
def comparisonFromProduct (env : Env) (p : ProductData) (n : ℕ) : PriceComparison × ℕ :=
  let del := generateDeliveryTime env p.platform n
  ({ platform := p.platform, price := p.price, originalPrice := p.originalPrice
     discountPercentage := p.discountPercentage, discountAmount := p.discountAmount
     availability := p.availability, url := p.url, rating := p.rating
     reviewCount := p.reviewCount, deliveryTime := some del.1 }, del.2)

/-- The `similarProducts.forEach` of the fallback branch. -/
def comparisonsFromProducts (env : Env) :
    List ProductData → ℕ → List PriceComparison × ℕ
  | [], n => ([], n)
  | p :: rest, n =>
    let c := comparisonFromProduct env p n
    let restR := comparisonsFromProducts env rest c.2
    (c.1 :: restR.1, restR.2)

/-- The body of `getRealPriceComparisons` once the original product is
resolved (part_012 lines 76–145): fetch the market data, then either convert its
price entries (success branch) or emit the original product's record followed by
the similar-product records (fallback branch). -/
def buildPriceComparisons (env : Env) (originalProd : ProductData)
    (productUrl : String) (n : ℕ) : List PriceComparison × ℕ :=
  let md := fetchRealMarketData env originalProd.name productUrl
    (some originalProd.price) n
  match md.1.success, md.1.data with
  | true, some d => comparisonsFromMarket env originalProd.name d.prices md.2
  | _, _ =>
    let c0 := comparisonFromProduct env originalProd md.2
    let sim := findSimilarProducts env originalProd c0.2
    let cs := comparisonsFromProducts env sim.1 sim.2
    (c0.1 :: cs.1, cs.2)

/-- `getRealPriceComparisons` (part_012 lines 61–151): the top-level comparison
builder.  The trailing `catch` (`return []`) cannot trigger in the model since
no modelled step throws. -/
def getRealPriceComparisons (env : Env) (originalProduct : Option ProductData)
    (productUrl : String) (n : ℕ) : List PriceComparison × ℕ :=
  let orig : Option ProductData × ℕ :=
    match originalProduct with
    | some p => (some p, n)
    | none => analyzeProductFromUrl env productUrl n
  match orig.1 with
  | none => ([], orig.2)
  | some originalProd => buildPriceComparisons env originalProd productUrl orig.2

/-! ## Supporting lemmas -/

unseal Rat.add Rat.mul Rat.inv Rat.sub Rat.ofScientific in
lemma priceRanges_entries :
    ∀ kv ∈ priceRanges, 10 ≤ kv.2.min ∧ kv.2.max ≤ 500000 ∧ kv.2.min ≤ kv.2.max ∧
      (kv.2.max - kv.2.min + 1).den = 1 := by decide

unseal Rat.add Rat.mul Rat.inv Rat.sub Rat.ofScientific in
lemma defaultPriceRange_spec :
    10 ≤ defaultPriceRange.min ∧ defaultPriceRange.max ≤ 500000 ∧
      defaultPriceRange.min ≤ defaultPriceRange.max ∧
      (defaultPriceRange.max - defaultPriceRange.min + 1).den = 1 := by decide

lemma selectedPriceRange_spec (s : String) :
    10 ≤ (selectedPriceRange s).min ∧ (selectedPriceRange s).max ≤ 500000 ∧
      (selectedPriceRange s).min ≤ (selectedPriceRange s).max ∧
      ((selectedPriceRange s).max - (selectedPriceRange s).min + 1).den = 1 := by
  rcases h : findPriceRange (toLowerStr s) with _ | kv
  · simp only [selectedPriceRange, h]
    exact defaultPriceRange_spec
  · have hmem := List.mem_of_find?_eq_some h
    obtain ⟨k, r⟩ := kv
    simp only [selectedPriceRange, h]
    exact priceRanges_entries (k, r) hmem

lemma generateReasonablePrice_def (env : Env) (s : String) :
    generateReasonablePrice env s =
      ((⌊Int.fract (env.sin (generateSimpleHash s) * 10000) *
          ((selectedPriceRange s).max - (selectedPriceRange s).min + 1)⌋ : ℤ) : ℚ) +
        (selectedPriceRange s).min := by
  unfold generateReasonablePrice
  have h : |env.sin (generateSimpleHash s) * 10000 -
      ((⌊env.sin (generateSimpleHash s) * 10000⌋ : ℤ) : ℚ)| =
      Int.fract (env.sin (generateSimpleHash s) * 10000) := by
    rw [Int.self_sub_floor]
    exact abs_of_nonneg (Int.fract_nonneg _)
  simp only [generateReasonablePrice]
  rw [h]

lemma generateReasonablePrice_bounds (env : Env) (s : String) :
    (selectedPriceRange s).min ≤ generateReasonablePrice env s ∧
      generateReasonablePrice env s ≤ (selectedPriceRange s).max := by
  obtain ⟨h10, h5, hle, hden⟩ := selectedPriceRange_spec s
  rw [generateReasonablePrice_def]
  set x := env.sin (generateSimpleHash s) * 10000 with hx
  set r := selectedPriceRange s with hr
  set D : ℚ := r.max - r.min + 1 with hD
  have hDpos : 0 < D := by rw [hD]; linarith
  constructor
  · have h0 : (0 : ℤ) ≤ ⌊Int.fract x * D⌋ :=
      Int.floor_nonneg.mpr (mul_nonneg (Int.fract_nonneg x) hDpos.le)
    have h0' : (0 : ℚ) ≤ ((⌊Int.fract x * D⌋ : ℤ) : ℚ) := by exact_mod_cast h0
    linarith
  · have hlt : Int.fract x * D < D := by
      have := mul_lt_mul_of_pos_right (Int.fract_lt_one x) hDpos
      simpa using this
    have hDnum : ((D.num : ℤ) : ℚ) = D := by
      conv_rhs => rw [← Rat.num_div_den D, hden]
      norm_num
    have hfl : ⌊Int.fract x * D⌋ < D.num := by
      rw [Int.floor_lt, hDnum]; exact hlt
    have hfl2 : ⌊Int.fract x * D⌋ ≤ D.num - 1 := by omega
    have hfl3 : ((⌊Int.fract x * D⌋ : ℤ) : ℚ) ≤ D - 1 := by
      calc ((⌊Int.fract x * D⌋ : ℤ) : ℚ) ≤ ((D.num - 1 : ℤ) : ℚ) := by exact_mod_cast hfl2
        _ = ((D.num : ℤ) : ℚ) - 1 := by push_cast; ring
        _ = D - 1 := by rw [hDnum]
    have hDeq : D - 1 = r.max - r.min := by rw [hD]; ring
    linarith

lemma validationRanges_entries :
    ∀ kv ∈ validationRanges,
      10 ≤ kv.2.typical.min ∧ kv.2.typical.max ≤ 500000 ∧
      kv.2.min ≤ kv.2.typical.min ∧ kv.2.typical.min ≤ kv.2.typical.max ∧
      kv.2.typical.max ≤ kv.2.max := by decide

lemma validate_invalid (env : Env) (p : ℚ) (name platform : String)
    (h : (validatePriceByCategory env p name platform).isValid = false) :
    ∃ ty r, findValidationRange (toLowerStr name) = some (ty, r) ∧
      (p < r.min ∨ r.max < p) ∧
      (validatePriceByCategory env p name platform).suggestedPrice =
        some (min (max p r.typical.min) r.typical.max) := by
  rcases hf : findValidationRange (toLowerStr name) with _ | ⟨ty, r⟩
  · simp only [validatePriceByCategory, hf] at h
    exact absurd h (by decide)
  · by_cases hc : p < r.min ∨ r.max < p
    · exact ⟨ty, r, rfl, hc, by simp only [validatePriceByCategory, hf, if_pos hc]⟩
    · simp only [validatePriceByCategory, hf, if_neg hc] at h
      exact absurd h (by decide)

lemma validate_valid_of_no_range (env : Env) (p : ℚ) (name platform : String)
    (hf : findValidationRange (toLowerStr name) = none) :
    (validatePriceByCategory env p name platform).isValid = true := by
  simp only [validatePriceByCategory, hf]

lemma vanp_bounds (env : Env) (p : ℚ) (name platform : String) (hp : 0 < p) :
    10 ≤ validateAndNormalizePrice env p name platform ∧
      validateAndNormalizePrice env p name platform ≤ 500000 := by
  have hgen : 10 ≤ generateReasonablePrice env name ∧
      generateReasonablePrice env name ≤ 500000 := by
    have hb := generateReasonablePrice_bounds env name
    have hs := selectedPriceRange_spec name
    exact ⟨le_trans hs.1 hb.1, le_trans hb.2 hs.2.1⟩
  unfold validateAndNormalizePrice
  rw [if_neg (not_le.mpr hp)]
  by_cases h5 : 500000 < p
  · rw [if_pos h5]; exact hgen
  · rw [if_neg h5]
    by_cases h10 : p < 10
    · rw [if_pos h10]; exact hgen
    · rw [if_neg h10]
      have hp10 : 10 ≤ p := not_lt.mp h10
      have hp5 : p ≤ 500000 := not_lt.mp h5
      by_cases hv : (validatePriceByCategory env p name platform).isValid
      · simp only [hv, if_true]
        exact ⟨hp10, hp5⟩
      · have hinv : (validatePriceByCategory env p name platform).isValid = false := by
          simpa using hv
        obtain ⟨ty, r, hf, hout, hsugg⟩ := validate_invalid env p name platform hinv
        obtain ⟨ht10, ht5, _, htle, _⟩ :=
          validationRanges_entries (ty, r) (List.mem_of_find?_eq_some hf)
        simp only [hinv, Bool.false_eq_true, if_false, hsugg]
        have hc1 : r.typical.min ≤ min (max p r.typical.min) r.typical.max :=
          le_min (le_trans (le_max_right p r.typical.min) (le_refl _)) htle
        have hc2 : min (max p r.typical.min) r.typical.max ≤ r.typical.max :=
          min_le_right _ _
        have hne : ¬ (min (max p r.typical.min) r.typical.max = 0) := by
          intro h0
          rw [h0] at hc1
          linarith
        rw [if_neg hne]
        exact ⟨le_trans ht10 hc1, le_trans hc2 ht5⟩

lemma vanp_nonpos (env : Env) (p : ℚ) (name platform : String) (hp : p ≤ 0) :
    validateAndNormalizePrice env p name platform = 0 := by
  unfold validateAndNormalizePrice
  rw [if_pos hp]

lemma marketPricesFor_platforms (env : Env) (cat : String) (bp : ℚ) :
    ∀ (l : List MarketPlatform) (n : ℕ),
      ((marketPricesFor env cat bp l n).1.map (fun m => m.platform)) =
        l.map (fun q => q.name) := by
  intro l
  induction l with
  | nil => intro n; rfl
  | cons hd tl ih => intro n; simp only [marketPricesFor, List.map, List.map_cons]; rw [ih]

lemma comparisonsFromMarket_platforms (env : Env) (nm : String) :
    ∀ (l : List MarketPrice) (n : ℕ),
      ((comparisonsFromMarket env nm l n).1.map (fun c => c.platform)) =
        l.map (fun m => m.platform) := by
  intro l
  induction l with
  | nil => intro n; rfl
  | cons hd tl ih => intro n; simp only [comparisonsFromMarket, List.map, List.map_cons]; rw [ih]

lemma getRelevantPlatforms_names (cat : String) :
    ((getRelevantPlatforms cat).map (fun q => q.name)).head? = some "Amazon" ∧
      2 ≤ (getRelevantPlatforms cat).length := by
  unfold getRelevantPlatforms
  split_ifs <;> exact ⟨rfl, by decide⟩

lemma buildPriceComparisons_platforms (env : Env) (p : ProductData) (url : String) (n : ℕ) :
    ((buildPriceComparisons env p url n).1.map (fun c => c.platform)) =
      (getRelevantPlatforms (extractProductInfo p.name url).category).map
        (fun q => q.name) := by
  simp only [buildPriceComparisons, fetchRealMarketData, generateRealisticMarketData]
  rw [comparisonsFromMarket_platforms, marketPricesFor_platforms]

lemma buildPriceComparisons_length (env : Env) (p : ProductData) (url : String) (n : ℕ) :
    (buildPriceComparisons env p url n).1.length =
      (getRelevantPlatforms (extractProductInfo p.name url).category).length := by
  have h := congrArg List.length (buildPriceComparisons_platforms env p url n)
  simpa using h

lemma extractProductData_isSome (env : Env) (url : String) (n : ℕ) :
    (extractProductData env url n).1.isSome = true := by
  unfold extractProductData fetchPageContent
  rcases hf : env.fetch url with _ | page
  · simp
  · simp only
    split <;> simp

lemma analyzeProductFromUrl_some (env : Env) (url : String) (n : ℕ) :
    ∃ d, (analyzeProductFromUrl env url n).1 = some d := by
  have h := extractProductData_isSome env url n
  obtain ⟨d, hd⟩ := Option.isSome_iff_exists.mp h
  exact ⟨d, by simp only [analyzeProductFromUrl, hd]⟩

/-! ## Claims -/

/-- C1: the top-level comparison operation `getRealPriceComparisons` never
throws (it is a total function of its oracles in the model) and never returns an
empty result: for every original-product argument (present or absent), every
product URL, and every outcome of the environment oracles — in particular when
every platform fetch fails — the returned list contains at least one price
record. -/
theorem claim_C1_compare_nonempty (env : Env) (originalProduct : Option ProductData)
    (productUrl : String) (n : ℕ) :
    1 ≤ ((getRealPriceComparisons env originalProduct productUrl n).1).length := by
  have hlen : ∀ (p : ProductData) (m : ℕ),
      1 ≤ ((buildPriceComparisons env p productUrl m).1).length := by
    intro p m
    rw [buildPriceComparisons_length]
    have h := (getRelevantPlatforms_names (extractProductInfo p.name productUrl).category).2
    omega
  rcases originalProduct with _ | p
  · obtain ⟨d, hd⟩ := analyzeProductFromUrl_some env productUrl n
    simp only [getRealPriceComparisons, hd]
    exact hlen d _
  · simp only [getRealPriceComparisons]
    exact hlen p n

unseal Rat.add Rat.mul Rat.inv Rat.sub Rat.ofScientific in
/-- C2 counterexample: the normalizer rounds every result to a whole currency
unit (`Math.round`), so `extractPrice "₹1,234.50"` is `1235`, not the `1234.50`
the claim's first example requires. -/
theorem claim_C2_counterexample :
    extractPrice "₹1,234.50" ≠ (1234.5 : ℚ) ∧ extractPrice "₹1,234.50" = 1235 := by
  decide

unseal Rat.add Rat.mul Rat.inv Rat.sub Rat.ofScientific in
/-- C2 (amended): the normalizer returns the whole-unit rounded values for the
spec's examples: `normalize("₹1,234.50") = 1235` (rounded from 1234.50),
`normalize("₹2.5 L") = 250000`, `normalize("Rs. 999") = 999`. -/
theorem claim_C2_normalizer_examples :
    extractPrice "₹1,234.50" = 1235 ∧ extractPrice "₹2.5 L" = 250000 ∧
      extractPrice "Rs. 999" = 999 := by
  decide

/-- C3: the estimator is deterministic: its result depends only on the fixed
`Math.sin` function and the input string — two calls in environments that agree
on `Math.sin` (as any two calls within one deployment do) return identical
values, independently of the `Math.random` stream, the fetch/DOM oracles, the
clock, and every other piece of ambient state.  (`generateSimpleHash` is a pure
Lean function, so equal strings hash equally by construction.) -/
theorem claim_C3_estimator_deterministic (env env' : Env) (s : String)
    (h : env.sin = env'.sin) :
    generateReasonablePrice env s = generateReasonablePrice env' s := by
  simp only [generateReasonablePrice, h]

/-- An environment differing from `env0` in its `Math.random` stream and clock
but agreeing on `Math.sin`. -/
def env1 : Env := { env0 with rand := fun _ => 1 / 2, now := 42 }

/-- Witness for C3 at a concrete input: two environments with different random
streams and clocks produce the same estimate for "Samsung Galaxy Phone". -/
theorem claim_C3_witness :
    env0.sin = env1.sin ∧
      generateReasonablePrice env0 "Samsung Galaxy Phone" =
        generateReasonablePrice env1 "Samsung Galaxy Phone" :=
  ⟨rfl, claim_C3_estimator_deterministic env0 env1 "Samsung Galaxy Phone" rfl⟩

/-- An environment whose `Math.sin` oracle returns `1/20000` — a value within
`sin`'s range `[-1, 1]` — at every hash, so that the estimator's fractional
seed is exactly `1/2`.  Used to exhibit a concrete admissible seed for which
the estimate violates the validator's category bounds. -/
def envC4 : Env := { env0 with sin := fun _ => 1 / 20000 }

unseal Rat.add Rat.mul Rat.inv Rat.sub Rat.ofScientific in
/-- C4 counterexample: "tv shirt" contains the known category keyword "shirt",
whose validator (§4.2) range is [150, 15000] — but the estimator's own
first-match scan picks "tv" [15000, 200000], and with the admissible seed of
`envC4` the estimate is 107500: outside the matched validator category's
[min, max], and indeed flagged invalid by `validatePriceByCategory` — the
estimate does itself require validation, refuting the claim's category clause. -/
theorem claim_C4_counterexample :
    (-1 ≤ envC4.sin (generateSimpleHash "tv shirt") ∧
      envC4.sin (generateSimpleHash "tv shirt") ≤ 1) ∧
    containsStr (toLowerStr "tv shirt") "shirt" = true ∧
    findValidationRange (toLowerStr "tv shirt") =
      some ("shirt", ⟨150, 15000, ⟨400, 4000⟩⟩) ∧
    generateReasonablePrice envC4 "tv shirt" = 107500 ∧
    ¬ (generateReasonablePrice envC4 "tv shirt" ≤ 15000) ∧
    (validatePriceByCategory envC4 (generateReasonablePrice envC4 "tv shirt")
      "tv shirt" "Amazon").isValid = false := by
  decide

/-- C4 (amended): for every environment and string, the estimator's output lies
within the absolute bounds [10, 500000], and within the [min, max] of the
estimator's *own* first-matching price-range entry.  It does not in general
satisfy the validator's (§4.2) category bounds: when the estimator's
first-matching keyword differs from the validator's (as for "tv shirt"), the
estimate can fall outside the validator's range and be flagged invalid — see
the counterexample above. -/
theorem claim_C4_estimator_bounds (env : Env) (s : String) :
    (10 ≤ generateReasonablePrice env s ∧ generateReasonablePrice env s ≤ 500000) ∧
      (∀ k r, findPriceRange (toLowerStr s) = some (k, r) →
        r.min ≤ generateReasonablePrice env s ∧ generateReasonablePrice env s ≤ r.max) := by
  have hb := generateReasonablePrice_bounds env s
  have hs := selectedPriceRange_spec s
  refine ⟨⟨le_trans hs.1 hb.1, le_trans hb.2 hs.2.1⟩, ?_⟩
  intro k r hf
  have heq : selectedPriceRange s = r := by simp only [selectedPriceRange, hf]
  rw [heq] at hb
  exact hb

unseal Rat.add Rat.mul Rat.inv Rat.sub Rat.ofScientific in
/-- Witness for C4 at a concrete input: "Samsung Phone" matches the "phone"
category (range [8000, 100000]) and the estimate lies within it. -/
theorem claim_C4_witness :
    findPriceRange (toLowerStr "Samsung Phone") = some ("phone", ⟨8000, 100000⟩) ∧
      (8000 : ℚ) ≤ generateReasonablePrice env0 "Samsung Phone" ∧
      generateReasonablePrice env0 "Samsung Phone" ≤ 100000 :=
  ⟨by decide,
   (claim_C4_estimator_bounds env0 "Samsung Phone").2 "phone" ⟨8000, 100000⟩ (by decide)⟩

/-- C5: for every sellingPrice > 0 and listPrice > sellingPrice, the discount
calculator returns amount = listPrice − sellingPrice and
percentage = round(amount / listPrice · 100); when the list price is absent or
≤ sellingPrice, both fields are absent. -/
theorem claim_C5_discount (sellingPrice m : ℚ) :
    (0 < sellingPrice → sellingPrice < m →
      calculateDiscount sellingPrice (some m) =
        { discountPercentage := some ((jsRound ((m - sellingPrice) / m * 100) : ℤ) : ℚ)
          discountAmount := some (m - sellingPrice) }) ∧
    calculateDiscount sellingPrice none = {} ∧
    (m ≤ sellingPrice → calculateDiscount sellingPrice (some m) = {}) := by
  refine ⟨?_, rfl, ?_⟩
  · intro h0 hlt
    have hne : ¬ (m = 0 ∨ m ≤ sellingPrice) := by
      push_neg
      exact ⟨by linarith, by linarith⟩
    simp only [calculateDiscount, if_neg hne]
  · intro hle
    simp only [calculateDiscount, if_pos (Or.inr hle)]

unseal Rat.add Rat.mul Rat.inv Rat.sub Rat.ofScientific in
/-- Witness for C5 at concrete inputs: selling 80, list 100 gives 20% / ₹20;
selling 80, list 70 gives no discount. -/
theorem claim_C5_witness :
    calculateDiscount 80 (some 100) =
        { discountPercentage := some 20, discountAmount := some 20 } ∧
      calculateDiscount 80 (some 70) = {} := by
  refine ⟨?_, (claim_C5_discount 80 70).2.2 (by norm_num)⟩
  have h := (claim_C5_discount 80 100).1 (by norm_num) (by norm_num)
  rw [h]
  decide

/-- C6: whenever the category validator reports invalid, a category was matched
and the supplied suggestion equals the price clamped into
[typicalMin, typicalMax], which lies within the category's [min, max].  (The
validator never reports invalid when no category matches, so the
absolute-bounds disjunct of the claim is vacuous.) -/
theorem claim_C6_validator_suggestion (env : Env) (p : ℚ) (name platform : String)
    (h : (validatePriceByCategory env p name platform).isValid = false) :
    ∃ ty r, findValidationRange (toLowerStr name) = some (ty, r) ∧
      (validatePriceByCategory env p name platform).suggestedPrice =
        some (min (max p r.typical.min) r.typical.max) ∧
      r.min ≤ min (max p r.typical.min) r.typical.max ∧
      min (max p r.typical.min) r.typical.max ≤ r.max := by
  obtain ⟨ty, r, hf, hout, hsugg⟩ := validate_invalid env p name platform h
  obtain ⟨_, _, hmt, htle, htm⟩ :=
    validationRanges_entries (ty, r) (List.mem_of_find?_eq_some hf)
  refine ⟨ty, r, hf, hsugg, ?_, ?_⟩
  · exact le_min (le_trans hmt (le_max_right _ _)) (le_trans hmt htle)
  · exact le_trans (min_le_right _ _) htm

unseal Rat.add Rat.mul Rat.inv Rat.sub Rat.ofScientific in
/-- Witness for C6 at a concrete input: price 1 for "phone" is invalid and the
suggestion is the clamp into the typical range. -/
theorem claim_C6_witness :
    (validatePriceByCategory env0 1 "phone" "Amazon").isValid = false ∧
      ∃ ty r, findValidationRange (toLowerStr "phone") = some (ty, r) ∧
        (validatePriceByCategory env0 1 "phone" "Amazon").suggestedPrice =
          some (min (max 1 r.typical.min) r.typical.max) ∧
        r.min ≤ min (max 1 r.typical.min) r.typical.max ∧
        min (max 1 r.typical.min) r.typical.max ≤ r.max :=
  ⟨by decide, claim_C6_validator_suggestion env0 1 "phone" "Amazon" (by decide)⟩

unseal Rat.add Rat.mul Rat.inv Rat.sub Rat.ofScientific in
/-- C7 counterexample: the normalizer has no explicit "absent" representation —
on text containing no price at all it returns the numeric value `0`, so absence
IS represented as the value zero, contrary to the claim. -/
theorem claim_C7_counterexample : extractPrice "no price in this text" = 0 := by
  decide

/-- C7 (amended): the normalizer and validator represent absence by the numeric
sentinel 0, not explicitly: `extractPrice` returns 0 when nothing matches,
`validateAndNormalizePrice` returns 0 exactly on non-positive (absent) input;
whenever a price is present (positive input), the validator's output is
strictly positive. -/
theorem claim_C7_positive_or_sentinel :
    extractPrice "" = 0 ∧
      (∀ env p name platform, p ≤ 0 →
        validateAndNormalizePrice env p name platform = 0) ∧
      (∀ env p name platform, 0 < p →
        0 < validateAndNormalizePrice env p name platform) := by
  refine ⟨rfl, ?_, ?_⟩
  · intro env p name platform hp
    exact vanp_nonpos env p name platform hp
  · intro env p name platform hp
    have h := (vanp_bounds env p name platform hp).1
    linarith

/-- Witness for C7 (amended) at concrete inputs. -/
theorem claim_C7_witness :
    validateAndNormalizePrice env0 (-5) "Widget" "Amazon" = 0 ∧
      0 < validateAndNormalizePrice env0 150 "Widget" "Amazon" :=
  ⟨claim_C7_positive_or_sentinel.2.1 env0 (-5) "Widget" "Amazon" (by norm_num),
   claim_C7_positive_or_sentinel.2.2 env0 150 "Widget" "Amazon" (by norm_num)⟩

/-- A page on which every DOM query comes back empty: no product name and no
price can be extracted from it. -/
def pageEmpty : Page :=
  { q := fun _ => "", qFirst := fun _ => "", qItems := fun _ => []
    qFound := fun _ => false, sub := fun _ _ => "", subAttr := fun _ _ => none }

unseal Rat.add Rat.mul Rat.inv Rat.sub Rat.ofScientific in
/-- C8 counterexample: on a page with no extractable name and no extractable
price, the generic extractor does not return absent — it fabricates a record
named "Product" with an estimated price (500, the seeded estimate for the empty
name; `Math.sin(0) = 0` exactly, so `env0`'s sin oracle agrees with the runtime
here). -/
theorem claim_C8_counterexample :
    (extractGenericData env0 pageEmpty "https://example.com/item" "Unknown").map
        (fun d => (d.name, d.price)) = some ("Product", 500) := by
  decide

/-- C8 (amended): the Amazon and Flipkart extractors return absent whenever no
product name or no (positive) price could be extracted; the generic extractor
for unknown platforms instead always returns a record, fabricating the name
("Product") and an estimated price when extraction found nothing. -/
theorem claim_C8_extractor_absent :
    (∀ env page url, amazonName page = "" → extractAmazonData env page url = none) ∧
    (∀ env page url, (extractAmazonPrices page).1 = 0 →
      extractAmazonData env page url = none) ∧
    (∀ env page url, flipkartName page = "" → extractFlipkartData env page url = none) ∧
    (∀ env page url, (extractFlipkartPrices page).1 = 0 →
      extractFlipkartData env page url = none) ∧
    (∀ env page url platform, (extractGenericData env page url platform).isSome = true) := by
  refine ⟨?_, ?_, ?_, ?_, ?_⟩
  · intro env page url h
    simp [extractAmazonData, h]
  · intro env page url h
    by_cases hn : amazonName page = ""
    · simp [extractAmazonData, hn]
    · simp [extractAmazonData, hn, h]
  · intro env page url h
    simp [extractFlipkartData, h]
  · intro env page url h
    by_cases hn : flipkartName page = ""
    · simp [extractFlipkartData, hn]
    · simp [extractFlipkartData, hn, h]
  · intro env page url platform
    rfl

unseal Rat.add Rat.mul Rat.inv Rat.sub Rat.ofScientific in
/-- Witness for C8 (amended) at the concrete empty page. -/
theorem claim_C8_witness :
    extractAmazonData env0 pageEmpty "https://www.amazon.in/x" = none ∧
      extractFlipkartData env0 pageEmpty "https://www.flipkart.com/x" = none ∧
      (extractGenericData env0 pageEmpty "https://example.com/x" "Unknown").isSome = true :=
  ⟨claim_C8_extractor_absent.1 env0 pageEmpty "https://www.amazon.in/x" (by decide),
   claim_C8_extractor_absent.2.2.1 env0 pageEmpty "https://www.flipkart.com/x" (by decide),
   claim_C8_extractor_absent.2.2.2.2 env0 pageEmpty "https://example.com/x" "Unknown"⟩

/-- A source product hosted on Myntra, used to exhibit the behaviour of the
comparison builder's success branch. -/
def myntraProduct : ProductData :=
  { name := "Widget", price := 1000, availability := "In Stock"
    features := [], platform := "Myntra", url := "https://www.myntra.com/widget" }

unseal Rat.add Rat.mul Rat.inv Rat.sub Rat.ofScientific in
/-- C9 counterexample: for a product whose source platform is "Myntra", the
comparison result is ["Amazon", "Flipkart"] — the first record is Amazon's, and
no record for the original/source platform appears at all. -/
theorem claim_C9_counterexample :
    ((getRealPriceComparisons env0 (some myntraProduct)
        "https://www.myntra.com/widget" 0).1.map (fun c => c.platform)) =
      ["Amazon", "Flipkart"] ∧
    ¬ (myntraProduct.platform ∈
        ((getRealPriceComparisons env0 (some myntraProduct)
          "https://www.myntra.com/widget" 0).1.map (fun c => c.platform))) := by
  decide

/-- C9 (amended): the market-data call always succeeds, so for every supplied
original product the result's records are exactly those of
`getRelevantPlatforms` for the product's inferred category — Amazon's record
first — and the original/source platform's record is not generally included.
(Only the dead fallback branch would put the original platform's record
first.) -/
theorem claim_C9_market_platforms_first (env : Env) (orig : ProductData)
    (productUrl : String) (n : ℕ) :
    (((getRealPriceComparisons env (some orig) productUrl n).1).map
        (fun c => c.platform) =
      (getRelevantPlatforms (extractProductInfo orig.name productUrl).category).map
        (fun q => q.name)) ∧
    (((getRealPriceComparisons env (some orig) productUrl n).1).head?.map
        (fun c => c.platform) = some "Amazon") := by
  have h := buildPriceComparisons_platforms env orig productUrl n
  have hmain : ((getRealPriceComparisons env (some orig) productUrl n).1).map
      (fun c => c.platform) =
      (getRelevantPlatforms (extractProductInfo orig.name productUrl).category).map
        (fun q => q.name) := by
    simpa only [getRealPriceComparisons] using h
  refine ⟨hmain, ?_⟩
  have hh := (getRelevantPlatforms_names (extractProductInfo orig.name productUrl).category).1
  have hhead : (((getRealPriceComparisons env (some orig) productUrl n).1).map
      (fun c => c.platform)).head? = some "Amazon" := by
    rw [hmain]; exact hh
  rwa [List.head?_map] at hhead

/-- C10: `validateAndNormalizePrice` returns 0 exactly on non-positive input and
otherwise returns a value within the absolute bounds [10, 500000] — whether it
accepts the price, substitutes the clamped category suggestion, or falls back to
a fresh estimate. -/
theorem claim_C10_validated_bounds (env : Env) (p : ℚ) (name platform : String) :
    (p ≤ 0 → validateAndNormalizePrice env p name platform = 0) ∧
      (0 < p → 10 ≤ validateAndNormalizePrice env p name platform ∧
        validateAndNormalizePrice env p name platform ≤ 500000) :=
  ⟨fun hp => vanp_nonpos env p name platform hp,
   fun hp => vanp_bounds env p name platform hp⟩

/-- Witness for C10 at concrete inputs: 0 maps to 0; 600000 (above the absolute
ceiling) maps into [10, 500000] via the estimator fallback. -/
theorem claim_C10_witness :
    validateAndNormalizePrice env0 0 "Widget" "Amazon" = 0 ∧
      (10 ≤ validateAndNormalizePrice env0 600000 "phone" "Amazon" ∧
        validateAndNormalizePrice env0 600000 "phone" "Amazon" ≤ 500000) :=
  ⟨(claim_C10_validated_bounds env0 0 "Widget" "Amazon").1 le_rfl,
   (claim_C10_validated_bounds env0 600000 "phone" "Amazon").2 (by norm_num)⟩

end Spendora
